import Mathlib

/-!
Verification of the Currency-APP Flask service (src/app.py): a shallow
embedding of its retry loop (`call_api_with_retry`) and of the `/detect`
handler (`detect_currency`), together with theorems about the behaviour
the specification ascribes to them.

Modelling conventions:
* Python `str` values are modelled as `List Char`.
* JSON values produced by Python `json.loads` are modelled by the
  inductive type `Json`; `json_loads` below is a recursive-descent
  parser for the JSON subset exchanged with the upstream service
  (objects, arrays, strings with the common escapes, integers,
  booleans, null — no floats, exponents or \u escapes, and the
  leading-zero restriction on numbers is not enforced).  Python dicts
  are association lists whose insertion honours "last write wins".
* The network is modelled by a script: the list of upstream responses
  that successive `requests.post` calls would receive.  A script that
  runs out models a network that never answers (the Python code would
  block), rendered by the artificial outcome `Outcome.noResponse` /
  `DetectResult.hang`.
* Exceptions that escape the handler entirely (they are raised inside
  an `except` clause, which the sibling `except Exception` clause does
  not catch) are modelled by `DetectResult.unhandled`; Flask answers
  such a request with a generic 500 page, reflected by `http_status`.
-/

/-- Characters stripped by Python `str.strip()` (the whitespace actually
occurring in the payloads: space, tab, CR, LF). -/
def isPyWhitespace (c : Char) : Bool :=
  c = ' ' ∨ c = '\t' ∨ c = '\r' ∨ c = '\n'

/-- Python `str.strip()` on a character list. -/
def pyStrip (s : List Char) : List Char :=
  ((s.dropWhile isPyWhitespace).reverse.dropWhile isPyWhitespace).reverse

/-- Fuel-driven worker for `strReplace`; the fuel is the length of the
subject string, which bounds the number of scanning steps. -/
def strReplaceAux : Nat → List Char → List Char → List Char → List Char
  | 0, s, _, _ => s
  | _ + 1, [], _, _ => []
  | fuel + 1, c :: rest, old, new =>
    if old ≠ [] ∧ old.isPrefixOf (c :: rest) then
      new ++ strReplaceAux fuel ((c :: rest).drop old.length) old new
    else
      c :: strReplaceAux fuel rest old new

/-- Python `s.replace(old, new)`: left-to-right, non-overlapping
replacement (callers in src/app.py only use non-empty `old`). -/
def strReplace (s old new : List Char) : List Char :=
  strReplaceAux s.length s old new

/-- JSON values as produced by Python `json.loads`: `Json.bool` stands
for a Python `bool` (which Python also treats as an `int`), `Json.int`
for a genuine `int`. -/
inductive Json where
  | null : Json
  | bool (b : Bool) : Json
  | int (n : Int) : Json
  | str (s : List Char) : Json
  | arr (elems : List Json) : Json
  | obj (members : List (List Char × Json)) : Json

/-- Python `dict` lookup (`d.get(k)` / `d[k]`) on the association list:
the parser keeps keys unique, so the first match is the binding. -/
def objGet (m : List (List Char × Json)) (k : List Char) : Option Json :=
  (m.find? (fun p => p.1 == k)).map (fun p => p.2)

/-- Python `dict` assignment `d[k] = v`: an existing key keeps its
insertion position and is overwritten, a fresh key is appended. -/
def dictInsert (m : List (List Char × Json)) (k : List Char) (v : Json) :
    List (List Char × Json) :=
  if m.any (fun p => p.1 == k) then
    m.map (fun p => if p.1 == k then (p.1, v) else p)
  else
    m ++ [(k, v)]

/-- Skip JSON whitespace. -/
def skipWs : List Char → List Char :=
  List.dropWhile isPyWhitespace

/-- Parse the body of a JSON string literal (the opening quote already
consumed), handling the escapes that occur in the payloads; returns the
decoded characters and the remainder after the closing quote. -/
def jsonStr : Nat → List Char → Option (List Char × List Char)
  | 0, _ => none
  | _ + 1, [] => none
  | fuel + 1, c :: rest =>
    if c = '"' then some ([], rest)
    else if c = '\\' then
      match rest with
      | [] => none
      | e :: rest2 =>
        let dec : Option Char :=
          if e = '"' then some '"'
          else if e = '\\' then some '\\'
          else if e = '/' then some '/'
          else if e = 'n' then some '\n'
          else if e = 't' then some '\t'
          else if e = 'r' then some '\r'
          else none
        match dec with
        | some d => (jsonStr fuel rest2).map (fun p => (d :: p.1, p.2))
        | none => none
    else (jsonStr fuel rest).map (fun p => (c :: p.1, p.2))

/-- Decimal value of a digit run. -/
def digitsVal (ds : List Char) : Nat :=
  ds.foldl (fun acc c => acc * 10 + (c.toNat - 48)) 0

/-- Parse an integer literal (optional minus sign, then digits). -/
def parseIntToken (s : List Char) : Option (Json × List Char) :=
  match s with
  | '-' :: rest =>
    let p := rest.span Char.isDigit
    if p.1 = [] then none else some (Json.int (-(digitsVal p.1 : Int)), p.2)
  | _ =>
    let p := s.span Char.isDigit
    if p.1 = [] then none else some (Json.int (digitsVal p.1 : Int), p.2)

/-- Parser modes: a top-level value, the elements of an array already
begun, or the members of an object already begun (with accumulators). -/
inductive PMode where
  | top : PMode
  | arrElems (acc : List Json) : PMode
  | objMembers (acc : List (List Char × Json)) : PMode

/-- One recursive-descent parser for values, array tails and object
tails, fuelled so the recursion is structural. -/
def parseStep : Nat → PMode → List Char → Option (Json × List Char)
  | 0, _, _ => none
  | fuel + 1, PMode.top, s =>
    match skipWs s with
    | [] => none
    | c :: rest =>
      if c = '{' then
        match skipWs rest with
        | '}' :: r2 => some (Json.obj [], r2)
        | _ => parseStep fuel (PMode.objMembers []) rest
      else if c = '[' then
        match skipWs rest with
        | ']' :: r2 => some (Json.arr [], r2)
        | _ => parseStep fuel (PMode.arrElems []) rest
      else if c = '"' then
        (jsonStr (rest.length + 1) rest).map (fun p => (Json.str p.1, p.2))
      else if "true".data.isPrefixOf (c :: rest) then
        some (Json.bool true, (c :: rest).drop 4)
      else if "false".data.isPrefixOf (c :: rest) then
        some (Json.bool false, (c :: rest).drop 5)
      else if "null".data.isPrefixOf (c :: rest) then
        some (Json.null, (c :: rest).drop 4)
      else parseIntToken (c :: rest)
  | fuel + 1, PMode.arrElems acc, s =>
    match parseStep fuel PMode.top s with
    | none => none
    | some (v, r) =>
      match skipWs r with
      | ',' :: r2 => parseStep fuel (PMode.arrElems (acc ++ [v])) r2
      | ']' :: r2 => some (Json.arr (acc ++ [v]), r2)
      | _ => none
  | fuel + 1, PMode.objMembers acc, s =>
    match skipWs s with
    | '"' :: rest =>
      match jsonStr (rest.length + 1) rest with
      | none => none
      | some (k, r1) =>
        match skipWs r1 with
        | ':' :: r2 =>
          match parseStep fuel PMode.top r2 with
          | none => none
          | some (v, r3) =>
            match skipWs r3 with
            | ',' :: r4 => parseStep fuel (PMode.objMembers (dictInsert acc k v)) r4
            | '}' :: r4 => some (Json.obj (dictInsert acc k v), r4)
            | _ => none
        | _ => none
    | _ => none

/-- Python `json.loads`: parse one value and insist nothing but
whitespace follows; `none` models a raised `json.JSONDecodeError`. -/
def json_loads (s : List Char) : Option Json :=
  match parseStep (2 * s.length + 8) PMode.top s with
  | some (v, rest) => if skipWs rest = [] then some v else none
  | none => none

/-- One scripted upstream response: the HTTP status code and the raw
body text the `requests` response would carry. -/
structure UpstreamResponse where
  status : Nat
  body : List Char
deriving Repr, DecidableEq

/-- How one run of `call_api_with_retry` ends: `success` models the
`return response`, `httpError` the re-raised `requests.exceptions.HTTPError`
of the last attempt, `maxRetriesExceeded` the post-loop
`raise RequestException("Max retries exceeded.")`, and `noResponse` the
artificial outcome of a script that runs out (a network that never
answers, on which the Python code would block). -/
inductive Outcome where
  | success (r : UpstreamResponse) : Outcome
  | httpError (r : UpstreamResponse) : Outcome
  | maxRetriesExceeded : Outcome
  | noResponse : Outcome
deriving Repr, DecidableEq

/-- A run of the retry loop: its outcome, how many `requests.post`
calls it made, and the successive `time.sleep` durations. -/
structure RunResult where
  outcome : Outcome
  calls : Nat
  sleeps : List Nat
deriving Repr, DecidableEq

/-- Line 55 of src/app.py: membership in `[429, 500, 502, 503, 504]`. -/
def isRetryableStatus (s : Nat) : Bool :=
  s == 429 || s == 500 || s == 502 || s == 503 || s == 504

/-- `response.raise_for_status()` raises exactly for 4xx/5xx codes. -/
def isHttpErrorStatus (s : Nat) : Bool :=
  decide (400 ≤ s) && decide (s < 600)

/-- The loop body of `call_api_with_retry` (lines 48–61 of src/app.py),
run against a script of upstream responses, starting at the given
attempt index. -/
def call_api_aux : List UpstreamResponse → Nat → Nat → RunResult
  | [], attempt, maxRetries =>
    if attempt < maxRetries then ⟨Outcome.noResponse, 0, []⟩
    else ⟨Outcome.maxRetriesExceeded, 0, []⟩
  | r :: rest, attempt, maxRetries =>
    if attempt < maxRetries then
      if isHttpErrorStatus r.status then
        if isRetryableStatus r.status && decide (attempt < maxRetries - 1) then
          let rr := call_api_aux rest (attempt + 1) maxRetries
          ⟨rr.outcome, rr.calls + 1, 2 ^ attempt :: rr.sleeps⟩
        else ⟨Outcome.httpError r, 1, []⟩
      else ⟨Outcome.success r, 1, []⟩
    else ⟨Outcome.maxRetriesExceeded, 0, []⟩

/-- `call_api_with_retry` of src/app.py: the loop starts at attempt 0;
the handler always calls it with the default `max_retries = 5`. -/
def call_api_with_retry (script : List UpstreamResponse) (maxRetries : Nat) :
    RunResult :=
  call_api_aux script 0 maxRetries

/-- Key strings used by the handler. -/
def kDenomination : List Char := "denomination".data

/-- Key of the strict-boolean field. -/
def kFullValidation : List Char := "full_validation".data

/-- Key of the spoken-summary field. -/
def kSpeechText : List Char := "speech_text".data

/-- Key of the error field in both the handler's error bodies and the
upstream error envelope. -/
def kError : List Char := "error".data

/-- Line 141 of src/app.py: strip the markdown fences, then whitespace. -/
def clean_json_text (raw_text : List Char) : List Char :=
  pyStrip (strReplace (strReplace raw_text "```json".data []) "```".data [])

/-- Lines 144–146 of src/app.py: if the parsed `denomination` is a
Python `int` (note that Python `bool` is a subclass of `int`, so
`isinstance(b, int)` also holds for booleans, and `str(True)` is
`"True"`), overwrite it with its `str()` rendering. -/
def normalize_denomination (m : List (List Char × Json)) :
    List (List Char × Json) :=
  match objGet m kDenomination with
  | some (Json.int n) => dictInsert m kDenomination (Json.str (toString n).data)
  | some (Json.bool b) =>
    dictInsert m kDenomination
      (Json.str (if b then "True".data else "False".data))
  | _ => m

/-- Result of the parse-and-normalize step (lines 139–154): `ok` is the
200 response with the (denomination-normalized) object, `invalidJson`
the 500 malformed-response body carrying the raw text, and `nonObject`
models the `AttributeError` raised by `.get` on a non-dict value, which
the inner `except json.JSONDecodeError` does not catch and the outer
`except Exception` turns into the generic 500. -/
inductive ParsedOutcome where
  | ok (body : List (List Char × Json)) : ParsedOutcome
  | invalidJson (raw : List Char) : ParsedOutcome
  | nonObject : ParsedOutcome

/-- Lines 139–154 of src/app.py, applied to the (already stripped)
model text `raw_text`. -/
def parse_model_text (raw_text : List Char) : ParsedOutcome :=
  match json_loads (clean_json_text raw_text) with
  | some (Json.obj m) => ParsedOutcome.ok (normalize_denomination m)
  | some _ => ParsedOutcome.nonObject
  | none => ParsedOutcome.invalidJson raw_text

/-- Python subscript `j[k]` on a JSON value, `none` when it raises. -/
def jGet (j : Json) (k : List Char) : Option Json :=
  match j with
  | Json.obj m => objGet m k
  | _ => none

/-- Python subscript `j[i]` on a JSON value, `none` when it raises. -/
def jIdx (j : Json) (i : Nat) : Option Json :=
  match j with
  | Json.arr xs => xs.get? i
  | _ => none

/-- Line 136 of src/app.py:
`response.json()['candidates'][0]['content']['parts'][0]['text'].strip()`;
`none` means some step raised, which the outer `except Exception`
converts into the generic 500 response. -/
def extract_candidate_text (body : List Char) : Option (List Char) :=
  ((((((json_loads body).bind (fun j => jGet j "candidates".data)).bind
      (fun j => jIdx j 0)).bind
      (fun j => jGet j "content".data)).bind
      (fun j => jGet j "parts".data)).bind
      (fun j => jIdx j 0)).bind
      (fun j =>
        match jGet j "text".data with
        | some (Json.str s) => some (pyStrip s)
        | _ => none)

/-- Result of line 158,
`e.response.json().get('error', {}).get('message', 'Unknown API Error')`:
`ok` is the value the chain yields, `raises` means the line itself
raised (non-JSON body, or `.get` on a non-dict), which escapes the
handler since it occurs inside an `except` clause. -/
inductive ExtractDetail where
  | ok (detail : Json) : ExtractDetail
  | raises : ExtractDetail

/-- Line 158 of src/app.py. -/
def extract_error_detail (body : List Char) : ExtractDetail :=
  match json_loads body with
  | some (Json.obj m) =>
    match objGet m kError with
    | none => ExtractDetail.ok (Json.str "Unknown API Error".data)
    | some (Json.obj em) =>
      match objGet em "message".data with
      | none => ExtractDetail.ok (Json.str "Unknown API Error".data)
      | some v => ExtractDetail.ok v
    | some _ => ExtractDetail.raises
  | _ => ExtractDetail.raises

/-- Result of building the user-safe message of lines 160–167: at
status 400 the code slices `error_detail[:50]`, which raises on the
non-sliceable values (modelled for every non-string detail; Python
would also accept a list there, a shape outside the upstream error
contract). -/
inductive SpeechResult where
  | ok (s : List Char) : SpeechResult
  | raises : SpeechResult

/-- Lines 160–167 of src/app.py. -/
def http_error_speech (status : Nat) (detail : Json) : SpeechResult :=
  if status = 400 then
    match detail with
    | Json.str s =>
      SpeechResult.ok ("Bad request. Detail: ".data ++ s.take 50 ++ "...".data)
    | _ => SpeechResult.raises
  else if status = 401 then
    SpeechResult.ok "API key error. Check your Gemini key.".data
  else if status = 429 then
    SpeechResult.ok "Rate limit exceeded. Too many requests.".data
  else
    SpeechResult.ok ("Gemini API Error: ".data ++ (toString status).data)

/-- The `error` field of line 169 is `str(e)` for the re-raised
`HTTPError`; `requests` renders the status code and reason, of which we
keep the status — the part the handler's contract relies on. -/
def http_error_str (status : Nat) : List Char :=
  "HTTPError ".data ++ (toString status).data

/-- A two-field error body `jsonify({"error": ..., "speech_text": ...})`. -/
def errBody (err speech : List Char) : Json :=
  Json.obj [(kError, Json.str err), (kSpeechText, Json.str speech)]

/-- Line 172's body (the interpolated exception text is elided). -/
def internalBody : Json :=
  errBody "Server processing error.".data "Internal server error.".data

/-- Lines 150–154's body (the interpolated `JSONDecodeError` text is
elided; the raw model text is attached verbatim). -/
def malformedBody (raw : List Char) : Json :=
  Json.obj [(kError, Json.str "Gemini returned invalid JSON.".data),
            ("raw_response".data, Json.str raw),
            (kSpeechText,
             Json.str "Analysis failed. Server returned unstructured response.".data)]

/-- What the `/detect` request is answered with: a Flask `(jsonify(...),
status)` pair, an exception that escaped the handler (Flask then serves
its generic 500 page), or the artificial `hang` of a network that never
answers. -/
inductive DetectResult where
  | response (status : Nat) (body : Json) : DetectResult
  | unhandled : DetectResult
  | hang : DetectResult

/-- One handled request: its result, the number of `requests.post`
calls made, and the backoff sleeps taken. -/
structure HandlerRun where
  result : DetectResult
  calls : Nat
  sleeps : List Nat

/-- The `/detect` handler (lines 71–172 of src/app.py).  `keyConfigured`
models `GEMINI_API_KEY` being set, `hasImage` the presence of the
`image` form field, `imageDecodes` whether PIL decode / JPEG re-encode
succeeds (its failure is caught by the outer `except Exception`), and
`script` the scripted upstream responses. -/
def detect_currency (keyConfigured hasImage imageDecodes : Bool)
    (script : List UpstreamResponse) : HandlerRun :=
  if keyConfigured = false then
    ⟨DetectResult.response 500
      (errBody "Gemini API Key not configured in .env.".data
               "Error: API key not configured.".data), 0, []⟩
  else if hasImage = false then
    ⟨DetectResult.response 400
      (errBody "No image provided.".data "Error: No image received.".data),
     0, []⟩
  else if imageDecodes = false then
    ⟨DetectResult.response 500 internalBody, 0, []⟩
  else
    let run := call_api_with_retry script 5
    match run.outcome with
    | Outcome.success r =>
      match extract_candidate_text r.body with
      | none => ⟨DetectResult.response 500 internalBody, run.calls, run.sleeps⟩
      | some raw_text =>
        match parse_model_text raw_text with
        | ParsedOutcome.ok m =>
          ⟨DetectResult.response 200 (Json.obj m), run.calls, run.sleeps⟩
        | ParsedOutcome.invalidJson raw =>
          ⟨DetectResult.response 500 (malformedBody raw), run.calls, run.sleeps⟩
        | ParsedOutcome.nonObject =>
          ⟨DetectResult.response 500 internalBody, run.calls, run.sleeps⟩
    | Outcome.httpError r =>
      match extract_error_detail r.body with
      | ExtractDetail.raises => ⟨DetectResult.unhandled, run.calls, run.sleeps⟩
      | ExtractDetail.ok detail =>
        match http_error_speech r.status detail with
        | SpeechResult.raises => ⟨DetectResult.unhandled, run.calls, run.sleeps⟩
        | SpeechResult.ok speech =>
          ⟨DetectResult.response r.status
            (errBody (http_error_str r.status) speech), run.calls, run.sleeps⟩
    | Outcome.maxRetriesExceeded =>
      ⟨DetectResult.response 500 internalBody, run.calls, run.sleeps⟩
    | Outcome.noResponse => ⟨DetectResult.hang, run.calls, run.sleeps⟩

/-- The HTTP status the client observes: `unhandled` becomes Flask's
generic 500 Internal Server Error page. -/
def http_status : DetectResult → Option Nat
  | DetectResult.response s _ => some s
  | DetectResult.unhandled => some 500
  | DetectResult.hang => none

/-- `Json` values are inhabited (used by list lemmas). -/
instance : Inhabited Json := ⟨Json.null⟩

/-- The fenced upstream text of §8 of the spec. -/
def fenced8 : List Char :=
  "```json\n\x7b\"side\":\"front\",\"denomination\":100,\"full_validation\":true,\"speech_text\":\"It is a 100 Rupees note.\"\x7d\n```".data

/-- A scripted 429 response with an (unused) empty JSON body. -/
def r429 : UpstreamResponse := ⟨429, "\x7b\x7d".data⟩

/-- Five consecutive retryable responses: exactly the default retry
budget. -/
def script5 : List UpstreamResponse := [r429, r429, r429, r429, r429]

/-- A 401 error body in the documented upstream error shape. -/
def errJson401 : List Char :=
  "\x7b\"error\":\x7b\"message\":\"bad key\"\x7d\x7d".data

/-- An upstream model text whose `full_validation` is the integer 1. -/
def rawFV1 : List Char := "\x7b\"full_validation\":1\x7d".data

/-- A full 200 envelope whose extracted model text is the empty JSON
object (so `speech_text` is absent). -/
def envEmptyObj : List Char :=
  "\x7b\"candidates\":[\x7b\"content\":\x7b\"parts\":[\x7b\"text\":\"\x7b\x7d\"\x7d]\x7d\x7d]\x7d".data

/-- The empty JSON object as upstream model text. -/
def rawEmptyObj : List Char := "\x7b\x7d".data

theorem retryable_isHttpError (s : Nat) (h : isRetryableStatus s = true) :
    isHttpErrorStatus s = true := by
  simp only [isRetryableStatus, Bool.or_eq_true, beq_iff_eq] at h
  rcases h with ((((h | h) | h) | h) | h) <;> subst h <;> rfl

theorem call_api_aux_nil (attempt maxRetries : Nat)
    (h1 : attempt < maxRetries) :
    call_api_aux [] attempt maxRetries = ⟨Outcome.noResponse, 0, []⟩ := by
  simp [call_api_aux, h1]

theorem call_api_aux_step_success (r : UpstreamResponse)
    (rest : List UpstreamResponse) (attempt maxRetries : Nat)
    (h1 : attempt < maxRetries) (hr : isHttpErrorStatus r.status = false) :
    call_api_aux (r :: rest) attempt maxRetries =
      ⟨Outcome.success r, 1, []⟩ := by
  simp [call_api_aux, h1, hr]

theorem call_api_aux_step_stop (r : UpstreamResponse)
    (rest : List UpstreamResponse) (attempt maxRetries : Nat)
    (h1 : attempt < maxRetries) (hr : isHttpErrorStatus r.status = true)
    (hc : ¬(isRetryableStatus r.status = true ∧ attempt < maxRetries - 1)) :
    call_api_aux (r :: rest) attempt maxRetries =
      ⟨Outcome.httpError r, 1, []⟩ := by
  simp [call_api_aux, h1, hr, hc]

theorem call_api_aux_step_retry (r : UpstreamResponse)
    (rest : List UpstreamResponse) (attempt maxRetries : Nat)
    (h1 : attempt < maxRetries) (hr : isHttpErrorStatus r.status = true)
    (hp : isRetryableStatus r.status = true)
    (h2 : attempt < maxRetries - 1) :
    call_api_aux (r :: rest) attempt maxRetries =
      ⟨(call_api_aux rest (attempt + 1) maxRetries).outcome,
       (call_api_aux rest (attempt + 1) maxRetries).calls + 1,
       2 ^ attempt :: (call_api_aux rest (attempt + 1) maxRetries).sleeps⟩ := by
  simp [call_api_aux, h1, hr, hp, h2]

theorem call_api_aux_success (pre : List UpstreamResponse) :
    ∀ (attempt maxRetries : Nat) (r : UpstreamResponse)
      (rest : List UpstreamResponse),
      (∀ x ∈ pre, isRetryableStatus x.status = true) →
      attempt + pre.length < maxRetries →
      isHttpErrorStatus r.status = false →
      call_api_aux (pre ++ r :: rest) attempt maxRetries =
        ⟨Outcome.success r, pre.length + 1,
         (List.range' attempt pre.length).map (fun k => 2 ^ k)⟩ := by
  induction pre with
  | nil =>
    intro attempt m r rest _ hlt hr
    simp only [List.length_nil, Nat.add_zero] at hlt
    simp [call_api_aux_step_success r rest attempt m hlt hr]
  | cons p ps ih =>
    intro attempt m r rest hall hlt hr
    have hp : isRetryableStatus p.status = true := hall p (by simp)
    have hpe : isHttpErrorStatus p.status = true := retryable_isHttpError _ hp
    simp only [List.length_cons] at hlt
    have hrec := ih (attempt + 1) m r rest (fun x hx => hall x (by simp [hx]))
      (by omega) hr
    rw [List.cons_append,
      call_api_aux_step_retry p (ps ++ r :: rest) attempt m (by omega) hpe hp
        (by omega), hrec]
    simp [List.range'_succ]

theorem call_api_aux_exhaust (script : List UpstreamResponse) :
    ∀ (attempt maxRetries : Nat) (h : script ≠ []),
      (∀ x ∈ script, isRetryableStatus x.status = true) →
      attempt + script.length = maxRetries →
      call_api_aux script attempt maxRetries =
        ⟨Outcome.httpError (script.getLast h), script.length,
         (List.range' attempt (script.length - 1)).map (fun k => 2 ^ k)⟩ := by
  induction script with
  | nil => intro _ _ h; exact absurd rfl h
  | cons p ps ih =>
    intro attempt m h hall hlen
    have hp : isRetryableStatus p.status = true := hall p (by simp)
    have hpe : isHttpErrorStatus p.status = true := retryable_isHttpError _ hp
    simp only [List.length_cons] at hlen
    match ps, ih with
    | [], _ =>
      have h2 : ¬(isRetryableStatus p.status = true ∧ attempt < m - 1) := by
        simp only [List.length_nil] at hlen
        intro hand
        omega
      rw [call_api_aux_step_stop p [] attempt m (by omega) hpe h2]
      simp
    | q :: qs, ih =>
      have hlen2 : attempt + (q :: qs).length + 1 = m := by
        simp only [List.length_cons] at hlen ⊢; omega
      have hrec := ih (attempt + 1) m (by simp)
        (fun x hx => hall x (by simp [hx]))
        (by simp only [List.length_cons] at hlen2 ⊢; omega)
      have hlast : (p :: q :: qs).getLast h = (q :: qs).getLast (by simp) := by
        simp [List.getLast]
      rw [call_api_aux_step_retry p (q :: qs) attempt m (by omega) hpe hp
        (by simp only [List.length_cons] at hlen2; omega), hrec, hlast]
      simp only [List.length_cons, RunResult.mk.injEq]
      refine ⟨trivial, trivial, ?_⟩
      rw [show qs.length + 1 + 1 - 1 = qs.length + 1 by omega,
        List.range'_succ]
      simp

theorem call_api_aux_no_maxExceeded (script : List UpstreamResponse) :
    ∀ (attempt maxRetries : Nat), attempt < maxRetries →
      (call_api_aux script attempt maxRetries).outcome ≠
        Outcome.maxRetriesExceeded := by
  induction script with
  | nil => intro attempt m h1; rw [call_api_aux_nil attempt m h1]; simp
  | cons p ps ih =>
    intro attempt m h1
    by_cases hpe : isHttpErrorStatus p.status = true
    · by_cases hp : isRetryableStatus p.status = true
      · by_cases h2 : attempt < m - 1
        · rw [call_api_aux_step_retry p ps attempt m h1 hpe hp h2]
          exact ih (attempt + 1) m (by omega)
        · rw [call_api_aux_step_stop p ps attempt m h1 hpe (by tauto)]
          simp
      · rw [call_api_aux_step_stop p ps attempt m h1 hpe (by tauto)]
        simp
    · rw [call_api_aux_step_success p ps attempt m h1
        (by simpa using hpe)]
      simp

theorem call_api_aux_sleeps (script : List UpstreamResponse) :
    ∀ (attempt maxRetries : Nat),
      (call_api_aux script attempt maxRetries).sleeps =
        (List.range' attempt
          (call_api_aux script attempt maxRetries).sleeps.length).map
          (fun k => 2 ^ k) := by
  induction script with
  | nil =>
    intro attempt m
    by_cases h1 : attempt < m
    · rw [call_api_aux_nil attempt m h1]; simp
    · simp [call_api_aux, h1]
  | cons p ps ih =>
    intro attempt m
    by_cases h1 : attempt < m
    · by_cases hpe : isHttpErrorStatus p.status = true
      · by_cases hp : isRetryableStatus p.status = true
        · by_cases h2 : attempt < m - 1
          · rw [call_api_aux_step_retry p ps attempt m h1 hpe hp h2]
            simp only [List.length_cons, List.range'_succ, List.map_cons]
            rw [← ih (attempt + 1) m]
          · rw [call_api_aux_step_stop p ps attempt m h1 hpe (by tauto)]; simp
        · rw [call_api_aux_step_stop p ps attempt m h1 hpe (by tauto)]; simp
      · rw [call_api_aux_step_success p ps attempt m h1 (by simpa using hpe)]
        simp
    · simp [call_api_aux, h1]

theorem objGet_nil (k : List Char) : objGet [] k = none := rfl

theorem objGet_cons_hit (p : List Char × Json) (ps : List (List Char × Json))
    (k : List Char) (h : (p.1 == k) = true) :
    objGet (p :: ps) k = some p.2 := by
  simp [objGet, h]

theorem objGet_cons_miss (p : List Char × Json) (ps : List (List Char × Json))
    (k : List Char) (h : (p.1 == k) = false) :
    objGet (p :: ps) k = objGet ps k := by
  simp [objGet, h]

theorem objGet_map_overwrite (m : List (List Char × Json)) (k : List Char)
    (v : Json) (hm : m.any (fun p => p.1 == k) = true) :
    objGet (m.map (fun p => if p.1 == k then (p.1, v) else p)) k = some v := by
  induction m with
  | nil => simp at hm
  | cons p ps ih =>
    rw [List.map_cons]
    by_cases hk : (p.1 == k) = true
    · rw [if_pos hk, objGet_cons_hit (p.1, v) _ k hk]
    · rw [if_neg (by simp [hk]), objGet_cons_miss p _ k (by simpa using hk)]
      simp only [List.any_cons, Bool.or_eq_true] at hm
      rcases hm with hm | hm
      · exact absurd hm hk
      · exact ih hm

theorem objGet_map_overwrite_ne (m : List (List Char × Json))
    (k k2 : List Char) (v : Json) (hne : k2 ≠ k) :
    objGet (m.map (fun p => if p.1 == k then (p.1, v) else p)) k2 =
      objGet m k2 := by
  induction m with
  | nil => rfl
  | cons p ps ih =>
    rw [List.map_cons]
    by_cases hk : (p.1 == k) = true
    · have hpk : p.1 = k := by simpa using hk
      have hk2 : (p.1 == k2) = false := by
        simp only [beq_eq_false_iff_ne, ne_eq, hpk]
        exact fun h => hne h.symm
      rw [if_pos hk, objGet_cons_miss (p.1, v) _ k2 hk2,
        objGet_cons_miss p ps k2 hk2]
      exact ih
    · rw [if_neg (by simp [hk])]
      by_cases hk2 : (p.1 == k2) = true
      · rw [objGet_cons_hit p _ k2 hk2, objGet_cons_hit p ps k2 hk2]
      · rw [objGet_cons_miss p _ k2 (by simpa using hk2),
          objGet_cons_miss p ps k2 (by simpa using hk2)]
        exact ih

theorem objGet_append_new (m : List (List Char × Json)) (k : List Char)
    (v : Json) (hm : m.any (fun p => p.1 == k) = false) :
    objGet (m ++ [(k, v)]) k = some v := by
  induction m with
  | nil => simp [objGet]
  | cons p ps ih =>
    simp only [List.any_cons, Bool.or_eq_false_iff] at hm
    rw [List.cons_append, objGet_cons_miss p _ k hm.1]
    exact ih hm.2

theorem objGet_append_other (m : List (List Char × Json)) (k k2 : List Char)
    (v : Json) (hne : k2 ≠ k) :
    objGet (m ++ [(k, v)]) k2 = objGet m k2 := by
  induction m with
  | nil =>
    have hk2 : (k == k2) = false := by
      simp only [beq_eq_false_iff_ne, ne_eq]
      exact fun h => hne h.symm
    rw [List.nil_append, objGet_cons_miss (k, v) [] k2 hk2]
  | cons p ps ih =>
    by_cases hk2 : (p.1 == k2) = true
    · rw [List.cons_append, objGet_cons_hit p _ k2 hk2,
        objGet_cons_hit p ps k2 hk2]
    · rw [List.cons_append, objGet_cons_miss p _ k2 (by simpa using hk2),
        objGet_cons_miss p ps k2 (by simpa using hk2)]
      exact ih

theorem objGet_dictInsert_self (m : List (List Char × Json)) (k : List Char)
    (v : Json) : objGet (dictInsert m k v) k = some v := by
  unfold dictInsert
  cases hany : m.any (fun p => p.1 == k) with
  | true => rw [if_pos rfl]; exact objGet_map_overwrite m k v hany
  | false =>
    rw [if_neg (by simp)]
    exact objGet_append_new m k v hany

theorem objGet_dictInsert_ne (m : List (List Char × Json)) (k k2 : List Char)
    (v : Json) (hne : k2 ≠ k) :
    objGet (dictInsert m k v) k2 = objGet m k2 := by
  unfold dictInsert
  split
  · exact objGet_map_overwrite_ne m k k2 v hne
  · exact objGet_append_other m k k2 v hne

theorem normalize_denomination_not_int (m : List (List Char × Json))
    (n : Int) :
    objGet (normalize_denomination m) kDenomination ≠ some (Json.int n) := by
  unfold normalize_denomination
  cases h : objGet m kDenomination with
  | none => rw [h]; simp
  | some v =>
    cases v with
    | int n2 =>
      rw [objGet_dictInsert_self]
      intro heq
      cases heq
    | bool b =>
      rw [objGet_dictInsert_self]
      intro hsome
      cases hsome
    | null => rw [h]; simp
    | str s => rw [h]; simp
    | arr xs => rw [h]; simp
    | obj ms => rw [h]; simp

theorem normalize_denomination_other_key (m : List (List Char × Json))
    (k2 : List Char) (hne : k2 ≠ kDenomination) :
    objGet (normalize_denomination m) k2 = objGet m k2 := by
  unfold normalize_denomination
  cases h : objGet m kDenomination with
  | none => rfl
  | some v =>
    cases v with
    | int n2 => exact objGet_dictInsert_ne m kDenomination k2 _ hne
    | bool b => exact objGet_dictInsert_ne m kDenomination k2 _ hne
    | null => rfl
    | str s => rfl
    | arr xs => rfl
    | obj ms => rfl

/-- C1 (amended): for every upstream payload that parses as a JSON
object, the returned body's `denomination` is never an integer — the
handler rewrites integer denominations to their decimal string form (so
the §8 text yields the string "100", not the integer 100 the claim
states). -/
theorem claim_C1 (raw : List Char) (m : List (List Char × Json))
    (h : parse_model_text raw = ParsedOutcome.ok m) (n : Int) :
    objGet m kDenomination ≠ some (Json.int n) := by
  unfold parse_model_text at h
  cases hj : json_loads (clean_json_text raw) with
  | none => rw [hj] at h; cases h
  | some v =>
    cases v with
    | obj m2 =>
      rw [hj] at h
      cases h
      exact normalize_denomination_not_int m2 n
    | null => rw [hj] at h; cases h
    | bool b => rw [hj] at h; cases h
    | int n2 => rw [hj] at h; cases h
    | str s => rw [hj] at h; cases h
    | arr xs => rw [hj] at h; cases h

/-- C1 counterexample: on the fenced §8 text the code returns
`denomination` as the string "100", which is not the integer 100 the
claim asserts. -/
theorem claim_C1_counterexample :
    parse_model_text fenced8 = ParsedOutcome.ok
      [("side".data, Json.str "front".data),
       (kDenomination, Json.str "100".data),
       (kFullValidation, Json.bool true),
       (kSpeechText, Json.str "It is a 100 Rupees note.".data)] ∧
    Json.str "100".data ≠ Json.int 100 :=
  ⟨rfl, fun h => Json.noConfusion h⟩

/-- C1 witness: the amended theorem applied to the §8 text. -/
theorem claim_C1_witness :
    objGet [("side".data, Json.str "front".data),
            (kDenomination, Json.str "100".data),
            (kFullValidation, Json.bool true),
            (kSpeechText, Json.str "It is a 100 Rupees note.".data)]
      kDenomination ≠ some (Json.int 100) :=
  claim_C1 fenced8 _ rfl 100

/-- C2 (amended): when all of max_retries consecutive responses carry a
retryable status, the client re-raises the final attempt's upstream
HTTP error (not the distinct "Max retries exceeded" RequestException),
and makes exactly max_retries network calls — no more. -/
theorem claim_C2 (script : List UpstreamResponse) (m : Nat)
    (hpos : 1 ≤ m) (h2 : script.length = m) (hne : script ≠ [])
    (hall : ∀ x ∈ script, isRetryableStatus x.status = true) :
    call_api_with_retry script m =
      ⟨Outcome.httpError (script.getLast hne), m,
       (List.range (m - 1)).map (fun k => 2 ^ k)⟩ := by
  unfold call_api_with_retry
  rw [call_api_aux_exhaust script 0 m hne hall (by omega), h2,
    List.range_eq_range']

/-- C2 counterexample: five consecutive 429s against the default budget
of 5 end in the re-raised upstream `HTTPError`, not in the distinct
`RetryBudgetExhausted` (`Outcome.maxRetriesExceeded`) kind the claim
asserts. -/
theorem claim_C2_counterexample :
    call_api_with_retry script5 5 = ⟨Outcome.httpError r429, 5, [1, 2, 4, 8]⟩ ∧
    Outcome.httpError r429 ≠ Outcome.maxRetriesExceeded :=
  ⟨rfl, fun h => Outcome.noConfusion h⟩

/-- C2 witness: the amended theorem applied to five 429 responses. -/
theorem claim_C2_witness :
    call_api_with_retry script5 5 =
      ⟨Outcome.httpError r429, 5, [1, 2, 4, 8]⟩ := by
  rw [claim_C2 script5 5 (by decide) rfl (by decide) (by decide)]
  rfl

/-- C3: for every sequence of retryable statuses of length at most
max_retries − 1 followed by a success response, the client returns that
response and makes exactly (length + 1) network calls. -/
theorem claim_C3 (pre : List UpstreamResponse) (r : UpstreamResponse)
    (rest : List UpstreamResponse) (m : Nat)
    (hall : ∀ x ∈ pre, isRetryableStatus x.status = true)
    (hlen : pre.length < m) (hr : isHttpErrorStatus r.status = false) :
    call_api_with_retry (pre ++ r :: rest) m =
      ⟨Outcome.success r, pre.length + 1,
       (List.range pre.length).map (fun k => 2 ^ k)⟩ := by
  unfold call_api_with_retry
  rw [call_api_aux_success pre 0 m r rest hall (by omega) hr,
    List.range_eq_range']

/-- C3 witness: two retryable responses then a 200 give success in
three calls. -/
theorem claim_C3_witness :
    call_api_with_retry ([r429, ⟨503, "\x7b\x7d".data⟩] ++
        ⟨200, "ok".data⟩ :: []) 5 =
      ⟨Outcome.success ⟨200, "ok".data⟩, 3, [1, 2]⟩ := by
  rw [claim_C3 [r429, ⟨503, "\x7b\x7d".data⟩] ⟨200, "ok".data⟩ [] 5
    (by decide) (by decide) (by decide)]
  rfl

/-- Building the user-safe message never raises when the upstream
detail is a string. -/
theorem http_error_speech_str_ok (status : Nat) (d : List Char) :
    ∃ s, http_error_speech status (Json.str d) = SpeechResult.ok s := by
  unfold http_error_speech
  split_ifs <;> exact ⟨_, rfl⟩

/-- C4: for every non-retryable HTTP error status whose body carries
the documented JSON error shape, exactly one network call is made, no
backoff sleep happens, and the handler answers with the upstream status
code and an error body derived from the upstream error. -/
theorem claim_C4 (r : UpstreamResponse) (rest : List UpstreamResponse)
    (d : List Char) (herr : isHttpErrorStatus r.status = true)
    (hretry : isRetryableStatus r.status = false)
    (hdetail : extract_error_detail r.body = ExtractDetail.ok (Json.str d)) :
    ∃ speech, http_error_speech r.status (Json.str d) = SpeechResult.ok speech ∧
      detect_currency true true true (r :: rest) =
        ⟨DetectResult.response r.status
          (errBody (http_error_str r.status) speech), 1, []⟩ := by
  obtain ⟨speech, hs⟩ := http_error_speech_str_ok r.status d
  refine ⟨speech, hs, ?_⟩
  have hrun : call_api_with_retry (r :: rest) 5 =
      ⟨Outcome.httpError r, 1, []⟩ :=
    call_api_aux_step_stop r rest 0 5 (by omega) herr (by simp [hretry])
  unfold detect_currency
  rw [hrun]
  simp [hdetail, hs]

/-- C4 witness: a 401 with a JSON error body is mirrored after exactly
one call. -/
theorem claim_C4_witness :
    ∃ speech,
      http_error_speech 401 (Json.str "bad key".data) =
        SpeechResult.ok speech ∧
      detect_currency true true true [⟨401, errJson401⟩] =
        ⟨DetectResult.response 401 (errBody (http_error_str 401) speech),
         1, []⟩ :=
  claim_C4 ⟨401, errJson401⟩ [] "bad key".data rfl rfl rfl

/-- C5 (amended): on successful parse the handler returns
`full_validation` exactly as the upstream value, applying no coercion
to a strict boolean (only `denomination` is touched). -/
theorem claim_C5 (raw : List Char) (m2 : List (List Char × Json))
    (hj : json_loads (clean_json_text raw) = some (Json.obj m2)) :
    parse_model_text raw = ParsedOutcome.ok (normalize_denomination m2) ∧
      objGet (normalize_denomination m2) kFullValidation =
        objGet m2 kFullValidation := by
  constructor
  · unfold parse_model_text
    rw [hj]
  · exact normalize_denomination_other_key m2 kFullValidation (by decide)

/-- C5 counterexample: an upstream `full_validation` of the integer 1
is returned as the integer 1, not coerced to a boolean. -/
theorem claim_C5_counterexample :
    parse_model_text rawFV1 =
      ParsedOutcome.ok [(kFullValidation, Json.int 1)] ∧
    Json.int 1 ≠ Json.bool true ∧ Json.int 1 ≠ Json.bool false :=
  ⟨rfl, fun h => Json.noConfusion h, fun h => Json.noConfusion h⟩

/-- C5 witness: the amended theorem applied to the integer-valued
`full_validation` payload. -/
theorem claim_C5_witness :
    parse_model_text rawFV1 =
      ParsedOutcome.ok
        (normalize_denomination [(kFullValidation, Json.int 1)]) ∧
      objGet (normalize_denomination [(kFullValidation, Json.int 1)])
          kFullValidation =
        objGet [(kFullValidation, Json.int 1)] kFullValidation :=
  claim_C5 rawFV1 [(kFullValidation, Json.int 1)] rfl

/-- C6 (amended): a payload that parses as a JSON object is returned
as a 200 success even when `speech_text` is absent; the absence is not
surfaced as a malformed-response error. -/
theorem claim_C6 (raw : List Char) (m2 : List (List Char × Json))
    (hj : json_loads (clean_json_text raw) = some (Json.obj m2))
    (hmiss : objGet m2 kSpeechText = none) :
    parse_model_text raw = ParsedOutcome.ok (normalize_denomination m2) ∧
      objGet (normalize_denomination m2) kSpeechText = none := by
  constructor
  · unfold parse_model_text
    rw [hj]
  · rw [normalize_denomination_other_key m2 kSpeechText (by decide)]
    exact hmiss

/-- C6 counterexample: an upstream payload of `\x7b\x7d` (no
`speech_text` at all) is answered as a 200 success whose body lacks
`speech_text`, not as a malformed-response error. -/
theorem claim_C6_counterexample :
    detect_currency true true true [⟨200, envEmptyObj⟩] =
      ⟨DetectResult.response 200 (Json.obj []), 1, []⟩ ∧
    objGet [] kSpeechText = none :=
  ⟨rfl, rfl⟩

/-- C6 witness: the amended theorem applied to the empty object
payload. -/
theorem claim_C6_witness :
    parse_model_text rawEmptyObj =
      ParsedOutcome.ok (normalize_denomination []) ∧
      objGet (normalize_denomination []) kSpeechText = none :=
  claim_C6 rawEmptyObj [] rfl rfl

/-- C7: a request without the `image` form field is answered
immediately with HTTP 400 and the fixed body ("No image provided." /
"Error: No image received."), with zero network calls, for every
script and image-decode state. -/
theorem claim_C7 (imageDecodes : Bool) (script : List UpstreamResponse) :
    detect_currency true false imageDecodes script =
      ⟨DetectResult.response 400
        (errBody "No image provided.".data "Error: No image received.".data),
       0, []⟩ :=
  rfl

/-- C8: in every run, the k-th (0-indexed) backoff wait is exactly
2 ^ k time units, so the waits are strictly increasing and uncapped
within the attempt budget. -/
theorem claim_C8 (script : List UpstreamResponse) (maxRetries : Nat) :
    (call_api_with_retry script maxRetries).sleeps =
      (List.range (call_api_with_retry script maxRetries).sleeps.length).map
        (fun k => 2 ^ k) ∧
    List.Pairwise (· < ·) (call_api_with_retry script maxRetries).sleeps := by
  have h := call_api_aux_sleeps script 0 maxRetries
  rw [← List.range_eq_range'] at h
  unfold call_api_with_retry
  refine ⟨h, ?_⟩
  rw [h]
  exact (List.pairwise_lt_range _).map _
    (fun a b hab => Nat.pow_lt_pow_right (by decide) hab)

/-- C9: for a positive retry budget the post-loop "Max retries
exceeded." raise is unreachable — no run ends in
`Outcome.maxRetriesExceeded` — and exhaustion of an all-retryable
script surfaces as the final attempt's HTTPError. -/
theorem claim_C9 (script : List UpstreamResponse) (m : Nat) (hpos : 1 ≤ m) :
    (call_api_with_retry script m).outcome ≠ Outcome.maxRetriesExceeded ∧
    (∀ (hne : script ≠ []), script.length = m →
      (∀ x ∈ script, isRetryableStatus x.status = true) →
      (call_api_with_retry script m).outcome =
        Outcome.httpError (script.getLast hne)) := by
  constructor
  · exact call_api_aux_no_maxExceeded script 0 m (by omega)
  · intro hne hlen hall
    unfold call_api_with_retry
    rw [call_api_aux_exhaust script 0 m hne hall (by omega)]

/-- C9 witness: five consecutive 429s end in the last attempt's
HTTPError, never in the post-loop raise. -/
theorem claim_C9_witness :
    (call_api_with_retry script5 5).outcome ≠ Outcome.maxRetriesExceeded ∧
    (call_api_with_retry script5 5).outcome = Outcome.httpError r429 := by
  have h := claim_C9 script5 5 (by decide)
  exact ⟨h.1, (h.2 (by decide) rfl (by decide)).trans rfl⟩

/-- C10: when a non-retryable upstream error carries a body that is
not valid JSON, extracting the error message raises inside the
`except` clause, the exception escapes the handler, and the request is
answered with a generic 500 instead of mirroring the upstream
status. -/
theorem claim_C10 (r : UpstreamResponse) (rest : List UpstreamResponse)
    (herr : isHttpErrorStatus r.status = true)
    (hretry : isRetryableStatus r.status = false)
    (hbody : json_loads r.body = none) :
    detect_currency true true true (r :: rest) =
      ⟨DetectResult.unhandled, 1, []⟩ ∧
    http_status DetectResult.unhandled = some 500 := by
  refine ⟨?_, rfl⟩
  have hrun : call_api_with_retry (r :: rest) 5 =
      ⟨Outcome.httpError r, 1, []⟩ :=
    call_api_aux_step_stop r rest 0 5 (by omega) herr (by simp [hretry])
  have hext : extract_error_detail r.body = ExtractDetail.raises := by
    unfold extract_error_detail
    rw [hbody]
  unfold detect_currency
  rw [hrun]
  simp [hext]

/-- C10 witness: a 403 with a non-JSON body yields the escaped
exception and the framework's 500. -/
theorem claim_C10_witness :
    detect_currency true true true [⟨403, "not json".data⟩] =
      ⟨DetectResult.unhandled, 1, []⟩ ∧
    http_status DetectResult.unhandled = some 500 :=
  claim_C10 ⟨403, "not json".data⟩ [] rfl rfl rfl
